import Mathlib

/-!
Shallow embedding of the simulation core of `src/app/page.tsx` (the 3D RL
policy simulator).  The rendering layer (Three.js scene, charts, DOM) is
out of scope; the embedded state keeps exactly the React state fields the
simulation core reads and writes, plus the agent mesh position (`agentPos`)
and the queue of `setTimeout` episode-restart callbacks (`pending`), which
in the source live outside React state.  JavaScript numbers are modelled as
rationals; every numeric constant of the core (-0.01, -1.0, 10.0, grid
coordinates) is exact in this model.  All functions model the
`threeLoaded = true`, scene-present regime in which the simulation runs.
-/

/-- Grid dimensions, `size: {x, y}` in the environment catalog. -/
structure GridSize where
  x : Int
  y : Int
deriving Repr, DecidableEq

/-- One entry of the `environments` catalog (page.tsx lines 168-211).
`start` is kept in the normalized list form that `initializeSimulation`
computes (`Array.isArray(envConfig.start[0]) ? envConfig.start : [envConfig.start]`). -/
structure Environment where
  name : String
  size : GridSize
  obstacles : List (Int × Int)
  goals : List (Int × Int)
  start : List (Int × Int)
deriving Repr, DecidableEq

/-- The `gridworld` catalog entry. -/
def gridworld : Environment :=
  { name := "Grid World"
    size := { x := 4, y := 4 }
    obstacles := [(1, 1), (2, 2)]
    goals := [(3, 3)]
    start := [(0, 0)] }

/-- The `maze` catalog entry. -/
def maze : Environment :=
  { name := "Maze Environment"
    size := { x := 6, y := 6 }
    obstacles := [(1, 0), (1, 1), (1, 2), (3, 3), (3, 4), (4, 4)]
    goals := [(5, 5)]
    start := [(0, 0)] }

/-- The `multiagent` catalog entry. -/
def multiagent : Environment :=
  { name := "Multi-Agent Arena"
    size := { x := 8, y := 8 }
    obstacles := [(2, 2), (3, 3), (4, 4), (5, 5)]
    goals := [(0, 7), (7, 0)]
    start := [(0, 0), (7, 7)] }

def gridworldKey : String := "gridworld"

def mazeKey : String := "maze"

def multiagentKey : String := "multiagent"

/-- The catalog lookup `environments[id]`. -/
def environments (id : String) : Option Environment :=
  if id = gridworldKey then some gridworld
  else if id = mazeKey then some maze
  else if id = multiagentKey then some multiagent
  else none

/-- A loaded policy as the simulation core reads it: the `type` tag and the
`values` table.  A `none` entry models a hole / `undefined` element of the
JavaScript array (the `qValues ? ... : random` falsiness test in
`simulationStep`); an index outside the list also reads as `none`. -/
structure Policy where
  type : String
  values : List (Option (List ℚ))
deriving Repr, DecidableEq

/-- JavaScript array read `policy.values[stateIndex]`: `undefined` (here
`none`) for a negative index, an index past the end, or a hole. -/
def jsGetEntry (vals : List (Option (List ℚ))) (i : Int) : Option (List ℚ) :=
  if 0 ≤ i then List.getD vals i.toNat none else none

/-- Tail of `qValues.indexOf(Math.max(...qValues))`: index of the running
maximum, scanning left to right, strict improvement required. -/
def greedyIndexAux : List ℚ → ℚ → Nat → Nat → Nat
  | [], _, _, best => best
  | q :: rest, mx, i, best =>
    if mx < q then greedyIndexAux rest q (i + 1) i
    else greedyIndexAux rest mx (i + 1) best

/-- `qValues.indexOf(Math.max(...qValues))`: the lowest index achieving the
maximum.  (On an empty vector the source throws before acting; no claim
exercises that corner, and this total model returns 0 there.) -/
def greedyIndex : List ℚ → Nat
  | [] => 0
  | q :: rest => greedyIndexAux rest q 1 0

/-- Inline action selection of `simulationStep` (page.tsx lines 401-402):
greedy over `policy.values[stateIndex]` when that entry exists, otherwise
`Math.floor(Math.random() * 4)`, supplied here as the draw `rand`.  The
policy tag is not consulted. -/
def selectAction (p : Policy) (env : Environment) (pos : Int × Int) (rand : Nat) : Nat :=
  match jsGetEntry p.values (pos.2 * env.size.x + pos.1) with
  | some qs => greedyIndex qs
  | none => rand

/-- The fixed action table (page.tsx lines 404-409). -/
def actionDeltas : List (Int × Int) := [(0, -1), (0, 1), (-1, 0), (1, 0)]

/-- `candidate` of a step: current position plus the action delta, clamped
per-axis to `[0, size-1]` (page.tsx lines 410-412).  Indices past the table
read the zero delta; the source would throw there and no claim reaches it. -/
def clampedCandidate (env : Environment) (pos : Int × Int) (actionIndex : Nat) : Int × Int :=
  let d := List.getD actionDeltas actionIndex (0, 0)
  (max 0 (min (env.size.x - 1) (pos.1 + d.1)),
   max 0 (min (env.size.y - 1) (pos.2 + d.2)))

/-- `cells.some((c) => c[0] === x && c[1] === z)`. -/
def hitsList (cells : List (Int × Int)) (x z : Int) : Bool :=
  cells.any fun c => c.1 == x && c.2 == z

/-- Outcome of the movement/reward block of one simulation step. -/
structure StepResult where
  nextPos : Int × Int
  isObstacle : Bool
  goalReached : Bool
  reward : ℚ
deriving Repr, DecidableEq

/-- The transition block of `simulationStep` (page.tsx lines 404-424):
clamp the candidate, test obstacles and goals on the clamped cell, move
only when not an obstacle.  The reward starts at -0.01, becomes -1.0 on an
obstacle, and is overwritten to 10.0 whenever the candidate is a goal cell
(the goal test is outside the obstacle `else`). -/
def transition (env : Environment) (pos : Int × Int) (actionIndex : Nat) : StepResult :=
  let c := clampedCandidate env pos actionIndex
  let isObstacle := hitsList env.obstacles c.1 c.2
  let goalReached := hitsList env.goals c.1 c.2
  let nextPos := if isObstacle = true then pos else c
  let reward1 : ℚ := if isObstacle = true then -1 else -(1/100)
  let reward : ℚ := if goalReached = true then 10 else reward1
  { nextPos := nextPos, isObstacle := isObstacle, goalReached := goalReached, reward := reward }

/-- The React state of the simulator component, restricted to the fields
the simulation core touches, together with the primary agent mesh position
and the queue of scheduled (`setTimeout`) episode restarts, each recorded
as the `goalReached` flag its closure captured. -/
structure SimState where
  env : Environment
  policy : Option Policy
  isRunning : Bool
  currentStep : Nat
  steps : Nat
  totalReward : ℚ
  rewardHistory : List ℚ
  stepsPerEpisode : List Nat
  currentEpisode : Nat
  trajectory : List (Int × Int)
  agentPos : Option (Int × Int)
  pending : List Bool
deriving Repr, DecidableEq

/-- `initializeSimulation` (page.tsx lines 363-388): rebuild the agents at
the start positions, reset the trajectory to the primary start, zero
`currentStep` and the metrics, and clear `rewardHistory`
(`setRewardHistory([])`, line 386).  Episode counter, `stepsPerEpisode`,
the policy, `isRunning` and any pending restart are untouched. -/
def initializeSimulation (st : SimState) : SimState :=
  { st with
    agentPos := st.env.start.head?
    trajectory :=
      match st.env.start.head? with
      | some p0 => [p0]
      | none => st.trajectory
    currentStep := 0
    steps := 0
    totalReward := 0
    rewardHistory := [] }

/-- Body of `simulationStep` once the `!policy` / missing-agent guards have
passed (page.tsx lines 399-438): select the action, apply the transition,
move the agent and extend the trajectory only on a non-collision, append
the reward to `rewardHistory`, advance the counters, then test termination
on the stale pre-increment `metrics.steps` and, on termination, push the
episode length only on success, stop running, and schedule a restart
carrying the `goalReached` flag. -/
def stepCore (st : SimState) (p : Policy) (pos : Int × Int) (rand : Nat) : SimState :=
  let a := selectAction p st.env pos rand
  let r := transition st.env pos a
  let base : SimState :=
    { st with
      agentPos := some r.nextPos
      trajectory := if r.isObstacle = true then st.trajectory else st.trajectory ++ [r.nextPos]
      steps := st.steps + 1
      totalReward := st.totalReward + r.reward
      currentStep := st.currentStep + 1
      rewardHistory := st.rewardHistory ++ [r.reward] }
  if r.goalReached = true ∨ 100 < st.steps then
    { base with
      stepsPerEpisode :=
        if r.goalReached = true then st.stepsPerEpisode ++ [st.steps + 1]
        else st.stepsPerEpisode
      isRunning := false
      pending := st.pending ++ [r.goalReached] }
  else base

/-- `simulationStep` (page.tsx lines 390-439): returns with no state change
when no policy is loaded (`if (!policy ...) return`) or no primary agent
mesh exists. -/
def simulationStep (st : SimState) (rand : Nat) : SimState :=
  match st.policy, st.agentPos with
  | some p, some pos => stepCore st p pos rand
  | _, _ => st

/-- `handleReset` (page.tsx lines 459-464): pause, set the episode counter
to 1, clear `stepsPerEpisode`, re-initialize.  The policy reference and any
pending scheduled restart are untouched. -/
def handleReset (st : SimState) : SimState :=
  initializeSimulation { st with isRunning := false, currentEpisode := 1, stepsPerEpisode := [] }

/-- Firing of the oldest scheduled restart callback (page.tsx lines
433-437): increment the episode, re-initialize, and resume running exactly
when the episode that scheduled it had reached the goal.  The source keeps
no handle and never cancels these callbacks. -/
def firePendingRestart (st : SimState) : SimState :=
  match st.pending with
  | [] => st
  | g :: rest =>
    let st1 := initializeSimulation
      { st with pending := rest, currentEpisode := st.currentEpisode + 1 }
    if g then { st1 with isRunning := true } else st1

/-- A parsed JavaScript value, as `JSON.parse` can produce it plus
`undefined` for missing-property reads. -/
inductive JSValue where
  | undefv : JSValue
  | nullv : JSValue
  | boolv : Bool → JSValue
  | numv : ℚ → JSValue
  | strv : String → JSValue
  | arrv : List JSValue → JSValue
  | objv : List (String × JSValue) → JSValue

/-- Property read `v[k]`: `undefined` when the value is no object or lacks
the key.  (Reading a property of `null`/`undefined` throws in JavaScript;
in `handleFileUpload` that throw lands in the same `catch` as a parse
failure, so reading `undef` here yields the same rejected outcome.) -/
def jsField : JSValue → String → JSValue
  | .objv fs, k =>
    match fs.lookup k with
    | some v => v
    | none => .undefv
  | _, _ => .undefv

/-- JavaScript truthiness of a parsed value. -/
def truthy : JSValue → Bool
  | .undefv => false
  | .nullv => false
  | .boolv b => b
  | .numv q => decide (q ≠ 0)
  | .strv s => decide (s ≠ "")
  | .arrv _ => true
  | .objv _ => true

/-- `Array.isArray`. -/
def jsIsArray : JSValue → Bool
  | .arrv _ => true
  | _ => false

def typeKey : String := "type"

def valuesKey : String := "values"

/-- The acceptance test of `handleFileUpload` (page.tsx line 540):
`uploadedPolicy.type && Array.isArray(uploadedPolicy.values)`. -/
def acceptPolicy (v : JSValue) : Bool :=
  truthy (jsField v typeKey) && jsIsArray (jsField v valuesKey)

/-- The policy-swap core of `handleFileUpload` (page.tsx lines 537-549) on
the raw parsed value: `parsed = none` models a `JSON.parse` throw (caught,
`console.error`, nothing changes); an accepted payload replaces the held
policy; a rejected one logs and leaves it.  The Bool reports acceptance
(false = recoverable failure surfaced via `console.error`). -/
def handleFileUpload (cur : Option JSValue) (parsed : Option JSValue) :
    Option JSValue × Bool :=
  match parsed with
  | none => (cur, false)
  | some v => if acceptPolicy v = true then (some v, true) else (cur, false)

/-! Concrete states used by counterexamples and witnesses. -/

def qTableKey : String := "q_table"

/-- A loaded policy whose value table is empty: every per-state lookup
falls back to the random draw. -/
def examplePolicy : Policy := { type := qTableKey, values := [] }

/-- Freshly initialized gridworld run with `examplePolicy` loaded. -/
def exampleStart : SimState :=
  { env := gridworld
    policy := some examplePolicy
    isRunning := true
    currentStep := 0
    steps := 0
    totalReward := 0
    rewardHistory := []
    stepsPerEpisode := []
    currentEpisode := 1
    trajectory := [(0, 0)]
    agentPos := some (0, 0)
    pending := [] }

/-- `exampleStart` after one simulation step (action 0, clamped at the
wall): one -0.01 reward recorded. -/
def exampleRunState : SimState := simulationStep exampleStart 0

/-- `exampleStart` with the policy removed. -/
def noPolicyState : SimState := { exampleStart with policy := none }

/-- A policy with an unsupported tag and one value vector whose maximum
sits at index 1. -/
def bogusTagPolicy : Policy := { type := "sarsa", values := [some [0, 5, 0, 0]] }

/-- Mid-run state whose stale step counter has passed the cap. -/
def stepCapState : SimState := { exampleStart with steps := 101 }

/-- Mid-run state about to record its 100th step. -/
def stepCount99State : SimState := { exampleStart with steps := 99 }

/-- Paused state with a successful episode's restart still scheduled. -/
def pendingRestartState : SimState :=
  { exampleStart with isRunning := false, steps := 7, pending := [true] }

/-- A two-cell environment whose only obstacle cell is also a goal cell. -/
def obstacleGoalEnv : Environment :=
  { name := "Trap"
    size := { x := 2, y := 1 }
    obstacles := [(1, 0)]
    goals := [(1, 0)]
    start := [(0, 0)] }

/-- Gridworld state one step below the goal. -/
def nearGoalState : SimState :=
  { exampleStart with agentPos := some (3, 2), trajectory := [(3, 2)], steps := 5 }

def emptyTag : String := ""

/-- Payload of spec Scenario C: empty `type` tag, well-formed `values`. -/
def emptyTypePayload : JSValue :=
  .objv [(typeKey, .strv emptyTag), (valuesKey, .arrv [])]

/-- A previously accepted, held policy payload. -/
def prevPolicyVal : JSValue :=
  .objv [(typeKey, .strv qTableKey), (valuesKey, .arrv [])]

/-! Shared helper lemmas. -/

/-- `hitsList` is membership of the cell in the list. -/
theorem hitsList_iff (cells : List (Int × Int)) (x z : Int) :
    hitsList cells x z = true ↔ (x, z) ∈ cells := by
  simp only [hitsList, List.any_eq_true, Bool.and_eq_true, beq_iff_eq]
  constructor
  · rintro ⟨⟨a, b⟩, hmem, h1, h2⟩
    subst h1
    subst h2
    exact hmem
  · intro h
    exact ⟨(x, z), h, rfl, rfl⟩

/-- When a policy and a primary agent are present, `simulationStep` runs
its body. -/
theorem simulationStep_present (st : SimState) (p : Policy) (pos : Int × Int) (rand : Nat)
    (hp : st.policy = some p) (ha : st.agentPos = some pos) :
    simulationStep st rand = stepCore st p pos rand := by
  unfold simulationStep
  rw [hp, ha]

/-! Claim C1. -/

/-- C1 (amended): every call of `initializeSimulation` resets the run
metrics — `step` to 0 and `totalReward` to 0 — and also clears
`rewardHistory` to the empty sequence: the reward history is reset on every
episode restart rather than spanning the whole run. -/
theorem initializeSimulation_resets_metrics_and_clears_rewardHistory (st : SimState) :
    (initializeSimulation st).steps = 0 ∧
    (initializeSimulation st).totalReward = 0 ∧
    (initializeSimulation st).currentStep = 0 ∧
    (initializeSimulation st).rewardHistory = [] := by
  simp [initializeSimulation]

/-- C1 counterexample: after one concrete gridworld step the run's
`rewardHistory` holds one -0.01 entry, and the episode restart's
`initializeSimulation` does not leave it unchanged — it clears it. -/
theorem initializeSimulation_clears_rewardHistory_cex :
    exampleRunState.rewardHistory = [-(1/100)] ∧
    (initializeSimulation exampleRunState).rewardHistory = [] ∧
    (initializeSimulation exampleRunState).rewardHistory ≠ exampleRunState.rewardHistory := by
  refine ⟨rfl, rfl, ?_⟩
  decide

/-! Claim C5. -/

/-- C5 (amended): after every call of `handleReset` the run is paused, the
episode counter equals 1, `stepsPerEpisode` is empty and the simulation is
re-initialized (step 0, total reward 0, reward history cleared); the policy
reference is left unchanged, not dropped. -/
theorem handleReset_spec (st : SimState) :
    (handleReset st).policy = st.policy ∧
    (handleReset st).currentEpisode = 1 ∧
    (handleReset st).stepsPerEpisode = [] ∧
    (handleReset st).isRunning = false ∧
    (handleReset st).steps = 0 ∧
    (handleReset st).totalReward = 0 ∧
    (handleReset st).currentStep = 0 ∧
    (handleReset st).rewardHistory = [] := by
  simp [handleReset, initializeSimulation]

/-- C5 counterexample: resetting a concrete state that holds a loaded
policy leaves that same policy loaded — `handleReset` does not drop the
policy reference. -/
theorem handleReset_keeps_policy_cex :
    pendingRestartState.policy = some examplePolicy ∧
    (handleReset pendingRestartState).policy = some examplePolicy := by
  exact ⟨rfl, rfl⟩

/-! Claim C4. -/

/-- C4 (code bug, evaluated at the failing input): a restart scheduled by a
successful episode is still pending after `handleReset` — the source stores
no timeout handle and never cancels — and when it then fires it acts on the
superseded state: it increments the episode counter the reset had set to 1
and switches the simulation back to running. -/
theorem stale_restart_fires_after_reset :
    (handleReset pendingRestartState).pending = [true] ∧
    (handleReset pendingRestartState).currentEpisode = 1 ∧
    (firePendingRestart (handleReset pendingRestartState)).currentEpisode = 2 ∧
    (firePendingRestart (handleReset pendingRestartState)).isRunning = true := by
  refine ⟨rfl, rfl, rfl, rfl⟩

/-! Claim C2. -/

/-- C2 (amended): when a policy is loaded and an agent exists but the
per-state entry `policy.values[stateIndex]` is absent, the action selector
returns the uniformly drawn index unchanged and the simulation step still
proceeds — it appends the corresponding reward and advances the step
counter.  (When the policy itself is absent the step does not proceed at
all; see the counterexample.  The policy tag is never consulted.) -/
theorem missing_policy_data_fallback (st : SimState) (p : Policy) (pos : Int × Int) (rand : Nat)
    (hp : st.policy = some p) (ha : st.agentPos = some pos)
    (hmiss : jsGetEntry p.values (pos.2 * st.env.size.x + pos.1) = none) :
    selectAction p st.env pos rand = rand ∧
    (simulationStep st rand).rewardHistory
      = st.rewardHistory ++ [(transition st.env pos rand).reward] ∧
    (simulationStep st rand).steps = st.steps + 1 := by
  have hsel : selectAction p st.env pos rand = rand := by
    unfold selectAction
    rw [hmiss]
  rw [simulationStep_present st p pos rand hp ha]
  refine ⟨hsel, ?_, ?_⟩ <;>
  · simp only [stepCore, hsel]
    split <;> simp

/-- C2 witness: in the fresh gridworld state with an empty value table the
entry for state 0 is absent, the draw 3 is used as the action, and the step
records one reward. -/
theorem missing_policy_data_fallback_witness :
    selectAction examplePolicy exampleStart.env (0, 0) 3 = 3 ∧
    (simulationStep exampleStart 3).rewardHistory
      = exampleStart.rewardHistory ++ [(transition exampleStart.env (0, 0) 3).reward] ∧
    (simulationStep exampleStart 3).steps = exampleStart.steps + 1 :=
  missing_policy_data_fallback exampleStart examplePolicy (0, 0) 3 rfl rfl rfl

/-- C2 counterexample: with the policy absent, `simulationStep` is a no-op
— the state is returned unchanged, so no (random or other) action is taken;
and with a policy present whose tag is not a supported tabular type, the
selector still plays greedily (index 1, the maximum) rather than returning
the random draw (0 or 2 here). -/
theorem policy_fallback_cex :
    simulationStep noPolicyState 2 = noPolicyState ∧
    noPolicyState.policy = none ∧
    selectAction bogusTagPolicy gridworld (0, 0) 0 = 1 ∧
    selectAction bogusTagPolicy gridworld (0, 0) 2 = 1 := by
  refine ⟨rfl, rfl, rfl, rfl⟩

/-! Claim C3. -/

/-- C3 (amended): on a step that does not reach the goal, the episode
terminates by timeout exactly when the stale pre-increment step counter
strictly exceeds 100 (`metrics.steps > 100`, i.e. on the step that brings
the counter to 102); on termination the run stops and a restart is
scheduled, and in no case is an entry appended to `stepsPerEpisode`. -/
theorem timeout_is_exclusive_on_stale_steps (st : SimState) (p : Policy) (pos : Int × Int)
    (rand : Nat) (hp : st.policy = some p) (ha : st.agentPos = some pos)
    (hng : (transition st.env pos (selectAction p st.env pos rand)).goalReached = false) :
    (simulationStep st rand).stepsPerEpisode = st.stepsPerEpisode ∧
    (100 < st.steps →
      (simulationStep st rand).isRunning = false ∧
      (simulationStep st rand).pending = st.pending ++ [false]) ∧
    (st.steps ≤ 100 →
      (simulationStep st rand).isRunning = st.isRunning ∧
      (simulationStep st rand).pending = st.pending) := by
  rw [simulationStep_present st p pos rand hp ha]
  by_cases h : 100 < st.steps
  · simp [stepCore, hng, h]
  · simp [stepCore, hng, h, Nat.le_of_not_lt h]

/-- C3 witness: from the stale counter 101 (the 102nd step of the episode),
a goal-less gridworld step times out: the run stops, a non-success restart
is scheduled, and `stepsPerEpisode` stays empty. -/
theorem timeout_is_exclusive_on_stale_steps_witness :
    (simulationStep stepCapState 0).stepsPerEpisode = stepCapState.stepsPerEpisode ∧
    (100 < stepCapState.steps →
      (simulationStep stepCapState 0).isRunning = false ∧
      (simulationStep stepCapState 0).pending = stepCapState.pending ++ [false]) ∧
    (stepCapState.steps ≤ 100 →
      (simulationStep stepCapState 0).isRunning = stepCapState.isRunning ∧
      (simulationStep stepCapState 0).pending = stepCapState.pending) :=
  timeout_is_exclusive_on_stale_steps stepCapState examplePolicy (0, 0) 0 rfl rfl rfl

/-- C3 counterexample: a goal-less step whose incremented counter reaches
exactly 100 — the claimed inclusive cap — does not end the episode: the
simulation is still running and no restart is scheduled. -/
theorem step_cap_not_inclusive_cex :
    (simulationStep stepCount99State 0).steps = 100 ∧
    (transition stepCount99State.env (0, 0) 0).goalReached = false ∧
    (simulationStep stepCount99State 0).isRunning = true ∧
    (simulationStep stepCount99State 0).pending = [] ∧
    (simulationStep stepCount99State 0).stepsPerEpisode = [] := by
  refine ⟨rfl, rfl, rfl, rfl, rfl⟩

/-! Claim C8. -/

/-- C8: `stepsPerEpisode` grows by exactly one entry on a goal-reaching
step — the appended value being that episode's step count, i.e. the
just-incremented counter — and is unchanged on every step that does not
reach the goal (in particular on a timeout termination). -/
theorem stepsPerEpisode_bookkeeping (st : SimState) (p : Policy) (pos : Int × Int) (rand : Nat)
    (hp : st.policy = some p) (ha : st.agentPos = some pos) :
    ((transition st.env pos (selectAction p st.env pos rand)).goalReached = true →
      (simulationStep st rand).stepsPerEpisode = st.stepsPerEpisode ++ [st.steps + 1] ∧
      (simulationStep st rand).steps = st.steps + 1) ∧
    ((transition st.env pos (selectAction p st.env pos rand)).goalReached = false →
      (simulationStep st rand).stepsPerEpisode = st.stepsPerEpisode) := by
  rw [simulationStep_present st p pos rand hp ha]
  constructor
  · intro hg
    simp [stepCore, hg]
  · intro hg
    by_cases h : 100 < st.steps
    · simp [stepCore, hg, h]
    · simp [stepCore, hg, h]

/-- C8 witness: from the cell below the gridworld goal, the step with draw
1 (down) reaches the goal and appends exactly the episode's step count 6 to
the empty `stepsPerEpisode`. -/
theorem stepsPerEpisode_bookkeeping_witness :
    (simulationStep nearGoalState 1).stepsPerEpisode
      = nearGoalState.stepsPerEpisode ++ [nearGoalState.steps + 1] ∧
    (simulationStep nearGoalState 1).steps = nearGoalState.steps + 1 :=
  (stepsPerEpisode_bookkeeping nearGoalState examplePolicy (3, 2) 1 rfl rfl).1 rfl

/-! Claim C6. -/

/-- C6 (amended): when the clamped candidate cell is an obstacle the agent
does not move, and — provided the environment's obstacle and goal sets are
disjoint, as in every catalog environment — the reward is -1.0 and
`goalReached` is false.  (Without disjointness the conclusion fails: the
goal test is not short-circuited by the collision; see the
counterexample.) -/
theorem collision_invariant (env : Environment) (pos : Int × Int) (a : Nat)
    (hdisj : ∀ c ∈ env.obstacles, c ∉ env.goals)
    (hobs : (transition env pos a).isObstacle = true) :
    (transition env pos a).nextPos = pos ∧
    (transition env pos a).reward = -1 ∧
    (transition env pos a).goalReached = false := by
  have hobs2 : hitsList env.obstacles (clampedCandidate env pos a).1
      (clampedCandidate env pos a).2 = true := by
    simpa [transition] using hobs
  have hmem := (hitsList_iff _ _ _).mp hobs2
  have hng : hitsList env.goals (clampedCandidate env pos a).1
      (clampedCandidate env pos a).2 = false := by
    cases hg : hitsList env.goals (clampedCandidate env pos a).1
        (clampedCandidate env pos a).2 with
    | false => rfl
    | true => exact absurd ((hitsList_iff _ _ _).mp hg) (hdisj _ hmem)
  refine ⟨?_, ?_, ?_⟩ <;> simp [transition, hobs2, hng]

/-- C6 witness: the gridworld step from (0,1) moving right collides with
the obstacle (1,1): the agent stays, the reward is -1.0 and the goal flag
is false. -/
theorem collision_invariant_witness :
    (transition gridworld (0, 1) 3).nextPos = (0, 1) ∧
    (transition gridworld (0, 1) 3).reward = -1 ∧
    (transition gridworld (0, 1) 3).goalReached = false :=
  collision_invariant gridworld (0, 1) 3 (by decide) (by decide)

/-- C6 counterexample: in an environment whose cell (1,0) is both obstacle
and goal, stepping right from (0,0) hits that cell: the transition reports
the collision and leaves the agent in place, yet `goalReached` is true and
the reward is 10.0, not -1.0 — the collision does not short-circuit the
goal evaluation. -/
theorem collision_short_circuit_cex :
    (transition obstacleGoalEnv (0, 0) 3).isObstacle = true ∧
    (transition obstacleGoalEnv (0, 0) 3).nextPos = (0, 0) ∧
    (transition obstacleGoalEnv (0, 0) 3).goalReached = true ∧
    (transition obstacleGoalEnv (0, 0) 3).reward = 10 := by
  refine ⟨rfl, rfl, rfl, rfl⟩

/-! Claim C7. -/

/-- C7: for every environment, every in-bounds position and every action
index below 4, the transition's next position stays inside
`[0, size.x) × [0, size.y)`: the candidate is clamped per-axis (never
wrapped), and a collision keeps the in-bounds current position. -/
theorem transition_bounds (env : Environment) (pos : Int × Int) (a : Nat)
    (ha4 : a < 4)
    (hx0 : 0 ≤ pos.1) (hx1 : pos.1 < env.size.x)
    (hy0 : 0 ≤ pos.2) (hy1 : pos.2 < env.size.y) :
    0 ≤ (transition env pos a).nextPos.1 ∧ (transition env pos a).nextPos.1 < env.size.x ∧
    0 ≤ (transition env pos a).nextPos.2 ∧ (transition env pos a).nextPos.2 < env.size.y := by
  have hsx : (0 : Int) < env.size.x := lt_of_le_of_lt hx0 hx1
  have hsy : (0 : Int) < env.size.y := lt_of_le_of_lt hy0 hy1
  have hc1a : (0 : Int) ≤ (clampedCandidate env pos a).1 := by
    simp only [clampedCandidate]
    exact le_max_left _ _
  have hc1b : (clampedCandidate env pos a).1 < env.size.x := by
    simp only [clampedCandidate]
    exact max_lt hsx (lt_of_le_of_lt (min_le_left _ _) (by omega))
  have hc2a : (0 : Int) ≤ (clampedCandidate env pos a).2 := by
    simp only [clampedCandidate]
    exact le_max_left _ _
  have hc2b : (clampedCandidate env pos a).2 < env.size.y := by
    simp only [clampedCandidate]
    exact max_lt hsy (lt_of_le_of_lt (min_le_left _ _) (by omega))
  have hcases : (transition env pos a).nextPos = pos ∨
      (transition env pos a).nextPos = clampedCandidate env pos a := by
    simp only [transition]
    split
    · exact Or.inl rfl
    · exact Or.inr rfl
  rcases hcases with h | h <;> rw [h]
  · exact ⟨hx0, hx1, hy0, hy1⟩
  · exact ⟨hc1a, hc1b, hc2a, hc2b⟩

/-- C7 witness: moving up from the gridworld corner (0,0) clamps to (0,0),
which is inside the 4 by 4 bounds. -/
theorem transition_bounds_witness :
    0 ≤ (transition gridworld (0, 0) 0).nextPos.1 ∧
    (transition gridworld (0, 0) 0).nextPos.1 < gridworld.size.x ∧
    0 ≤ (transition gridworld (0, 0) 0).nextPos.2 ∧
    (transition gridworld (0, 0) 0).nextPos.2 < gridworld.size.y :=
  transition_bounds gridworld (0, 0) 0 (by decide) (by decide) (by decide) (by decide) (by decide)

/-! Claim C10. -/

/-- C10: in any state over an environment with disjoint obstacle and goal
sets, every simulation step that proceeds appends to `rewardHistory`
exactly one reward, and that reward is -1.0, -0.01 or 10.0. -/
theorem reward_range (st : SimState) (p : Policy) (pos : Int × Int) (rand : Nat)
    (hdisj : ∀ c ∈ st.env.obstacles, c ∉ st.env.goals)
    (hp : st.policy = some p) (ha : st.agentPos = some pos) :
    ∃ r : ℚ, (simulationStep st rand).rewardHistory = st.rewardHistory ++ [r] ∧
      (r = -1 ∨ r = -(1/100) ∨ r = 10) := by
  rw [simulationStep_present st p pos rand hp ha]
  refine ⟨(transition st.env pos (selectAction p st.env pos rand)).reward, ?_, ?_⟩
  · simp only [stepCore]
    split <;> simp
  · simp only [transition]
    split
    · exact Or.inr (Or.inr rfl)
    · split
      · exact Or.inl rfl
      · exact Or.inr (Or.inl rfl)

/-- C10 witness: the first gridworld step of the fresh run appends one
reward, and it is one of the three values. -/
theorem reward_range_witness :
    ∃ r : ℚ, (simulationStep exampleStart 0).rewardHistory
      = exampleStart.rewardHistory ++ [r] ∧
      (r = -1 ∨ r = -(1/100) ∨ r = 10) :=
  reward_range exampleStart examplePolicy (0, 0) 0 (by decide) rfl rfl

/-! Claim C9. -/

/-- C9: a parsed policy payload is accepted exactly when its `type` field
is truthy and its `values` field is an array — no deeper validation — and
every rejected outcome (parse failure or failed acceptance test) leaves the
previously held policy unchanged while reporting the failure. -/
theorem policy_upload_acceptance (cur : Option JSValue) (parsed : Option JSValue) :
    ((handleFileUpload cur parsed).2 = true ↔
      ∃ v, parsed = some v ∧ truthy (jsField v typeKey) = true ∧
        jsIsArray (jsField v valuesKey) = true) ∧
    ((handleFileUpload cur parsed).2 = false → (handleFileUpload cur parsed).1 = cur) := by
  cases parsed with
  | none => simp [handleFileUpload]
  | some v =>
    by_cases hacc : acceptPolicy v = true
    · have h2 : truthy (jsField v typeKey) = true ∧ jsIsArray (jsField v valuesKey) = true := by
        simpa [acceptPolicy, Bool.and_eq_true] using hacc
      constructor
      · constructor
        · intro _
          exact ⟨v, rfl, h2.1, h2.2⟩
        · intro _
          simp [handleFileUpload, hacc]
      · intro hfalse
        simp [handleFileUpload, hacc] at hfalse
    · have h2 : ¬ (truthy (jsField v typeKey) = true ∧ jsIsArray (jsField v valuesKey) = true) := by
        intro hb
        exact hacc (by simp [acceptPolicy, Bool.and_eq_true, hb.1, hb.2])
      constructor
      · constructor
        · intro htrue
          simp [handleFileUpload, hacc] at htrue
        · rintro ⟨v2, hv2, ht, hl⟩
          injection hv2 with hv2e
          subst hv2e
          exact absurd ⟨ht, hl⟩ h2
      · intro _
        simp [handleFileUpload, hacc]

/-- C9 witness (spec Scenario C): the payload with an empty `type` tag is
rejected and the previously held policy stays in effect. -/
theorem policy_upload_acceptance_witness :
    (handleFileUpload (some prevPolicyVal) (some emptyTypePayload)).1 = some prevPolicyVal :=
  (policy_upload_acceptance (some prevPolicyVal) (some emptyTypePayload)).2 rfl
